import Mathlib

/-!
# Verification of the TruSTAR Splunk-SOAR connector against its specification

Shallow embedding of `trustar_connector.py` (the single source file of the
repository).  Each Python helper that the claims refer to is translated into an
executable Lean definition; theorems at the end of the file settle the claims.

Conventions used throughout:

* Python JSON values (the result of `response.json()` or `response.text`) are
  modelled by the inductive `PyJson`; a plain text body is `PyJson.str`.
* Python strings are modelled as `List Char` where character-level reasoning is
  needed (the IP validator) and as `String` elsewhere.
* Machine integers do not overflow in any of the involved code paths, so `Nat`
  and `Int` are used directly.
* Code of the repository that is not part of `src/` (the constants module
  `trustar_consts.py`) and external library calls (`phantom.is_ip`,
  `socket.inet_pton`, `dateutil.parser.parse`, `pytz`/`tzlocal`) are modelled
  from the specification; each such definition carries a doc comment saying so.
-/

/-- Python values produced by `response.json()` / `response.text` in
`_make_rest_call`: a JSON value, where a non-JSON text body is the `str`
constructor (Python `response.text` is a `str`).  Objects are association
lists, as Python dictionaries are finite key-value maps. -/
inductive PyJson where
  | str (s : String)
  | int (n : Int)
  | bool (b : Bool)
  | null
  | arr (elems : List PyJson)
  | obj (fields : List (String × PyJson))

/-- Python `isinstance(x, dict)`. -/
def PyJson.isDict : PyJson → Bool
  | .obj _ => true
  | _ => false

/-- Python `isinstance(x, list)`. -/
def PyJson.isList : PyJson → Bool
  | .arr _ => true
  | _ => false

/-- Python `d.get(key)` on an object: first binding of the key, if any. -/
def PyJson.lookupField (key : String) : List (String × PyJson) → Option PyJson
  | [] => none
  | (k, v) :: rest => if k = key then some v else PyJson.lookupField key rest

/-- Modelled from the spec: default message of `trustar_consts` for HTTP 400
(`trustar_consts.py` is not in `src/`; the spec names the kind BadRequest). -/
def TRUSTAR_REST_RESP_BAD_REQUEST_MSG : String := "Bad Request"

/-- Modelled from the spec: default message for HTTP 401 (Unauthorized). -/
def TRUSTAR_REST_RESP_UNAUTHORIZED_MSG : String := "Unauthorized"

/-- Modelled from the spec: default message for HTTP 404 (NotFound). -/
def TRUSTAR_REST_RESP_RESOURCE_NOT_FOUND_MSG : String := "Resource Not Found"

/-- Modelled from the spec: default message for HTTP 413 (PayloadTooLarge). -/
def TRUSTAR_REST_RESP_TOO_LONG_MSG : String := "Payload Too Large"

/-- Modelled from the spec: default message for HTTP 500 (InternalServerError). -/
def TRUSTAR_REST_RESP_INTERNAL_SERVER_ERROR_MSG : String := "Internal Server Error"

/-- Modelled from the spec: default message for HTTP 504 (GatewayTimeout). -/
def TRUSTAR_REST_RESP_GATEWAY_TIMEOUT_MSG : String := "Gateway Timeout"

/-- Modelled from the spec: generic message for any other non-2xx status
(the spec calls this outcome `Error(Other)`). -/
def TRUSTAR_REST_RESP_OTHER_ERROR_MSG : String := "Unknown error occurred"

/-- `ERROR_RESPONSE_DICT` of `trustar_connector.py`: the fixed table mapping
HTTP error statuses to default messages.  The six status values come from the
spec table (400, 401, 404, 413, 500, 504), since `trustar_consts.py` is not in
`src/`. -/
def ERROR_RESPONSE_DICT (status : Nat) : Option String :=
  if status = 400 then some TRUSTAR_REST_RESP_BAD_REQUEST_MSG
  else if status = 401 then some TRUSTAR_REST_RESP_UNAUTHORIZED_MSG
  else if status = 404 then some TRUSTAR_REST_RESP_RESOURCE_NOT_FOUND_MSG
  else if status = 413 then some TRUSTAR_REST_RESP_TOO_LONG_MSG
  else if status = 500 then some TRUSTAR_REST_RESP_INTERNAL_SERVER_ERROR_MSG
  else if status = 504 then some TRUSTAR_REST_RESP_GATEWAY_TIMEOUT_MSG
  else none

/-- Modelled from the spec: the success-status test of `_make_rest_call`
(`response.status_code == consts.TRUSTAR_REST_RESP_SUCCESS`); the constant
lives in `trustar_consts.py`, which is not in `src/`, and the spec classifies
success responses as the 2xx range. -/
def statusIsSuccess (status : Nat) : Bool :=
  200 ≤ status && status ≤ 299

/-- Outcome of `_make_rest_call` on a response whose body has already been
parsed (lines 220-255 of `trustar_connector.py`): either
`(phantom.APP_SUCCESS, response_data)`, or the unexpected-response-shape error
on a success status, or a server-error status with a detail message. -/
inductive RestOutcome where
  | success (payload : PyJson)
  | unexpectedShape (payload : PyJson)
  | serverError (status : Nat) (detail : PyJson)

/-- The message-override step of `_make_rest_call`: Python
`message = response_data.get("message", message)` guarded by
`isinstance(response_data, dict)`. -/
def overrideMessage (responseData : PyJson) (defaultMsg : String) : PyJson :=
  match responseData with
  | .obj fields => (PyJson.lookupField "message" fields).getD (.str defaultMsg)
  | _ => .str defaultMsg

/-- Status classification of `_make_rest_call` (lines 220-255): first the
fixed error table, then the success status (body must be a dict or a list),
then the catch-all server error.  `responseData` is the already-parsed body. -/
def _make_rest_call_classify (status : Nat) (responseData : PyJson) : RestOutcome :=
  match ERROR_RESPONSE_DICT status with
  | some defaultMsg => .serverError status (overrideMessage responseData defaultMsg)
  | none =>
    if statusIsSuccess status then
      if responseData.isDict || responseData.isList then .success responseData
      else .unexpectedShape responseData
    else .serverError status (overrideMessage responseData TRUSTAR_REST_RESP_OTHER_ERROR_MSG)

/-- A Python `datetime.datetime` as used by `_normalize_timestamp`: `wall` is
the naive wall-clock reading (minutes since the epoch; the granularity is
irrelevant to the claims) and `tz` the attached `tzinfo`, modelled as its UTC
offset in minutes (`none` for a naive datetime).  Calendar rendering is
abstracted away: `isoformat()` renders exactly the pair `(wall, tz)`, so two
datetimes produce the same ISO-8601 string iff they are equal as `PyDatetime`
values, and the rendered string carries a UTC offset iff `tz = some 0`. -/
structure PyDatetime where
  wall : Int
  tz : Option Int
  deriving DecidableEq

/-- `pytz` timezone `localize`: attach the zone to a naive datetime, keeping
the wall-clock reading (the local zone is modelled as a fixed UTC offset,
which is what `tzlocal.get_localzone()` provides for the duration of a call). -/
def pytz_localize (offset : Int) (d : PyDatetime) : PyDatetime :=
  { wall := d.wall, tz := some offset }

/-- Python `datetime.astimezone(pytz.utc)`: same instant, UTC offset.  In the
source it is only applied to aware datetimes (right after `localize`), for
which `tz.getD 0` is the actual offset. -/
def astimezone_utc (d : PyDatetime) : PyDatetime :=
  { wall := d.wall - d.tz.getD 0, tz := some 0 }

/-- The UTC instant an aware datetime denotes; `none` for naive datetimes. -/
def PyDatetime.instant (d : PyDatetime) : Option Int :=
  d.tz.map (fun o => d.wall - o)

/-- The optional `time_discovered` action parameter of `_submit_report`:
absent (`None`), a string, or a structured datetime. -/
inductive TimeDiscovered where
  | absent
  | ofString (s : String)
  | ofDatetime (d : PyDatetime)

/-- The timezone-fixing tail of `_normalize_timestamp` (lines 642-650): a
naive datetime is localized to the system timezone and converted to UTC; an
aware datetime is returned unchanged (the source has no `astimezone` call on
that path). -/
def _normalize_timestamp_finish (localOffset : Int) (d : PyDatetime) : PyDatetime :=
  if d.tz = none then astimezone_utc (pytz_localize localOffset d) else d

/-- `_normalize_timestamp` (lines 621-650).  `parse` models
`dateutil.parser.parse` (an external library; `none` models its parse
exception), `now` the naive wall clock of `datetime.datetime.now()`, and
`localOffset` the UTC offset of `tzlocal.get_localzone()`.  Returns `none`
exactly when the source returns `None`. -/
def _normalize_timestamp (parse : String → Option PyDatetime) (now localOffset : Int) :
    TimeDiscovered → Option PyDatetime
  | .absent => some (_normalize_timestamp_finish localOffset { wall := now, tz := none })
  | .ofString s => (parse s).map (_normalize_timestamp_finish localOffset)
  | .ofDatetime d => some (_normalize_timestamp_finish localOffset d)

/-- The action parameters of `_submit_report` that its validation phase reads. -/
structure SubmitParam where
  report_title : String
  report_body : String
  distribution_type : String
  enclave_ids : Option String
  time_discovered : TimeDiscovered
  external_tracking_id : Option String
  api_version : Option String

/-- Python truthiness of an optional string (`if enclave_ids:`): `None` and
the empty string are falsy. -/
def pyTruthyStr : Option String → Bool
  | none => false
  | some s => !s.isEmpty

/-- How far `_submit_report` gets before talking to the network:
`errTimeFormat` is the `TRUSTAR_ERR_TIME_FORMAT` failure (line 678),
`errMissingEnclave` the `TRUSTAR_ERR_MISSING_ENCLAVE_ID` failure (line 682),
and `network` means validation passed and the action proceeds to
`_generate_api_token` and the report-submission REST call (lines 709-717). -/
inductive SubmitOutcome where
  | errTimeFormat
  | errMissingEnclave
  | network (timeDiscovered : PyDatetime)
  deriving DecidableEq

/-- The validation phase of `_submit_report` (lines 660-717), in source order:
normalize the timestamp first (error on `None`), then require enclave ids for
the `ENCLAVE` distribution type, and only then proceed to the network. -/
def _submit_report (parse : String → Option PyDatetime) (now localOffset : Int)
    (p : SubmitParam) : SubmitOutcome :=
  match _normalize_timestamp parse now localOffset p.time_discovered with
  | none => .errTimeFormat
  | some t =>
    if p.distribution_type = "ENCLAVE" && !pyTruthyStr p.enclave_ids then .errMissingEnclave
    else .network t

/-- Whether a `_submit_report` run performs any network call: token generation
and the report submission both happen only after validation passes. -/
def submitNetworkAttempted : SubmitOutcome → Bool
  | .network _ => true
  | _ => false

/-- Python `int(math.ceil(a / float(b)))` for an integer `a` and a positive
integer `b`: the exact rational ceiling (the float arithmetic of the source is
exact for all realistic epoch values). -/
def pyCeilDiv (a b : Int) : Int :=
  -((-a).fdiv b)

/-- The query-selection logic of `_on_poll` (lines 897-922).  Inputs: whether
this is a poll-now run, the persisted `first_run` app-state entry (Python
`self._app_state.get of first_run, default True`), and the start/end times in epoch
milliseconds.  Returns the `intervalSize` request parameter (`none` = no
interval filter) and the updated `first_run` state.  The source divides the
epoch millisecond values by 1000 with Python 2 integer division (floor), takes
the difference, and applies `int(math.ceil(diff / 3600.0))`. -/
def _on_poll (pollNow : Bool) (firstRunState : Option Bool)
    (startTime endTime : Int) : Option Int × Option Bool :=
  if pollNow then (none, firstRunState)
  else if firstRunState.getD true then (none, some false)
  else (some (pyCeilDiv (endTime.fdiv 1000 - startTime.fdiv 1000) 3600), firstRunState)

/-- Python `s.split(sep)` for a one-character separator: splits at every
occurrence, keeping empty pieces, and always returns at least one piece. -/
def splitOnChar (c : Char) : List Char → List (List Char)
  | [] => [[]]
  | x :: xs =>
    if x = c then [] :: splitOnChar c xs
    else
      match splitOnChar c xs with
      | [] => [[x]]
      | p :: ps => (x :: p) :: ps

/-- Value of a non-empty all-digit character list; `none` otherwise. -/
def digitsToNat? (s : List Char) : Option Nat :=
  if s ≠ [] ∧ s.all Char.isDigit then
    some (s.foldl (fun acc c => 10 * acc + (c.toNat - 48)) 0)
  else none

/-- Whitespace stripped by Python `int(str)`. -/
def isPySpace (c : Char) : Bool :=
  c = ' ' || c = '\t' || c = '\n' || c = '\r'

/-- Python 2 `int(str)`: optional surrounding whitespace, optional sign,
non-empty digit run; `none` models the `ValueError`. -/
def pyInt? (s : List Char) : Option Int :=
  let t := ((s.dropWhile isPySpace).reverse.dropWhile isPySpace).reverse
  match t with
  | '-' :: rest => (digitsToNat? rest).map (fun n => -(n : Int))
  | '+' :: rest => (digitsToNat? rest).map (fun n => (n : Int))
  | rest => (digitsToNat? rest).map (fun n => (n : Int))

/-- `_break_ip_address` (lines 51-64): split `address/mask` on `/` (a Python
2-tuple unpacking, so any count of pieces other than two raises `ValueError`,
modelled as `none`), defaulting the mask to `0` when no `/` is present;
`int(prefix_size)` failures are also `none`. -/
def _break_ip_address (s : List Char) : Option (List Char × Int) :=
  if '/' ∈ s then
    match splitOnChar '/' s with
    | [ipAddr, maskStr] => (pyInt? maskStr).map (fun m => (ipAddr, m))
    | _ => none
  else some (s, 0)

/-- One octet of a dotted-quad IPv4 address: one to three digits, value at
most 255. -/
def isIpv4Octet (p : List Char) : Bool :=
  match digitsToNat? p with
  | some n => p.length ≤ 3 && n ≤ 255
  | none => false

/-- A dotted-quad IPv4 address: exactly four octets separated by dots. -/
def isDottedQuad (s : List Char) : Bool :=
  match splitOnChar '.' s with
  | [a, b, c, d] => isIpv4Octet a && isIpv4Octet b && isIpv4Octet c && isIpv4Octet d
  | _ => false

/-- Modelled from the spec: the host-platform IPv4 validator `phantom.is_ip`
(the `phantom` SDK is an external collaborator); the spec describes it as a
dotted-quad validator. -/
def phantom_is_ip (s : List Char) : Bool :=
  isDottedQuad s

/-- A hexadecimal group of a colon-form IPv6 address: one to four hex digits. -/
def isHexGroup (g : List Char) : Bool :=
  g ≠ [] && g.length ≤ 4 &&
    g.all (fun c => c.isDigit || (97 ≤ c.toNat && c.toNat ≤ 102) || (65 ≤ c.toNat && c.toNat ≤ 70))

/-- Number of 16-bit groups contributed by the colon-separated pieces of an
IPv6 address, where only the final piece may be an embedded dotted-quad IPv4
address (contributing two groups); `none` when some piece is invalid. -/
def hexGroupsWithOptV4 : List (List Char) → Option Nat
  | [] => some 0
  | [p] =>
    if isHexGroup p then some 1
    else if isDottedQuad p then some 2
    else none
  | p :: rest =>
    if isHexGroup p then (hexGroupsWithOptV4 rest).map (· + 1) else none

/-- Modelled from the spec: `socket.inet_pton(socket.AF_INET6, ·)` (an
external library call); the spec describes it as the colon-form IPv6 address
validator.  Pieces between colons are 1-4 hex digit groups, the last piece may
be an embedded dotted-quad, `::` compresses at most once (leading, trailing,
middle, or the bare string `::`), and the group total is 8 exactly when no
compression is used and at most 7 otherwise.  A string without a colon is
never a valid IPv6 address. -/
def inet_pton_ipv6 (s : List Char) : Bool :=
  let parts := splitOnChar ':' s
  if parts.length ≤ 1 then false
  else
    let emptyCount := parts.countP List.isEmpty
    if emptyCount = 0 then
      match hexGroupsWithOptV4 parts with
      | some g => g == 8
      | none => false
    else if emptyCount = 1 then
      if parts.head? = some [] || parts.getLast? = some [] then false
      else
        match hexGroupsWithOptV4 (parts.filter (fun p => !p.isEmpty)) with
        | some g => g ≤ 7
        | none => false
    else if emptyCount = 2 then
      match parts with
      | [] :: [] :: rest =>
        if rest = [] then false
        else
          match hexGroupsWithOptV4 rest with
          | some g => g ≤ 7
          | none => false
      | _ =>
        if parts.reverse.take 2 = [[], []] then
          let front := parts.dropLast.dropLast
          front ≠ [] && front.all isHexGroup && front.length ≤ 7
        else false
    else emptyCount = 3 && parts = [[], [], []]

/-- `_is_ipv6` (lines 67-80): the `socket.inet_pton` probe. -/
def _is_ipv6 (s : List Char) : Bool :=
  inet_pton_ipv6 s

/-- `_is_ip` (lines 120-144): break the input into address and mask (any
exception rejects), require a valid IPv4 or IPv6 address, then reject a mask
outside `range(0, 129)` for an address containing a colon or outside
`range(0, 33)` for an address containing a dot. -/
def _is_ip (s : List Char) : Bool :=
  match _break_ip_address s with
  | none => false
  | some (ipAddr, netMask) =>
    if !(phantom_is_ip ipAddr || _is_ipv6 ipAddr) then false
    else if (':' ∈ ipAddr ∧ ¬(0 ≤ netMask ∧ netMask ≤ 128)) ∨
            ('.' ∈ ipAddr ∧ ¬(0 ≤ netMask ∧ netMask ≤ 32)) then false
    else true

/-- The indicator types of the `cef_mapping` table in `_ingest_data`
(lines 816-847); per the data model these are the only types the remote
service produces. -/
inductive IocType where
  | SHA256
  | SHA1
  | MD5
  | SOFTWARE
  | EMAIL_ADDRESS
  | IP
  | CIDR_BLOCK
  | DOMAIN
  | URL
  | MALWARE
  | CVE
  | REGISTRY_KEY
  deriving DecidableEq

/-- One row of the `cef_mapping` table: artifact display name, CEF field name,
and the list of contains-tags. -/
structure CefDetails where
  artifact_name : String
  cef_name : String
  cef_contains : List String
  deriving DecidableEq

/-- The `cef_mapping` table of `_ingest_data` (lines 816-847), row by row. -/
def cef_mapping : IocType → CefDetails
  | .SHA256 => ⟨"File Artifact", "fileHashSha256", ["sha256"]⟩
  | .SHA1 => ⟨"File Artifact", "fileHashSha1", ["sha1"]⟩
  | .MD5 => ⟨"File Artifact", "fileHashMd5", ["md5"]⟩
  | .SOFTWARE => ⟨"File Artifact", "filePath", ["file name", "file path"]⟩
  | .EMAIL_ADDRESS => ⟨"Email Artifact", "email", ["email"]⟩
  | .IP => ⟨"IP Artifact", "destinationAddress", ["ip"]⟩
  | .CIDR_BLOCK => ⟨"IP Artifact", "destinationAddress", ["ip"]⟩
  | .DOMAIN => ⟨"Domain Artifact", "destinationDnsDomain", ["domain"]⟩
  | .URL => ⟨"URL Artifact", "requestURL", ["url"]⟩
  | .MALWARE => ⟨"Malware Artifact", "malware", ["trustar malware"]⟩
  | .CVE => ⟨"CVE Artifact", "cs3", ["trustar cve number"]⟩
  | .REGISTRY_KEY => ⟨"Registry Key Artifact", "registryKey", ["trustar registry key"]⟩

/-- The iteration order of `for ioc_key in cef_mapping` (line 850): a fixed
but implementation-defined Python 2 dictionary order, taken here as the
textual order of the table; no claim depends on the cross-type order. -/
def cef_mapping_order : List IocType :=
  [.SHA256, .SHA1, .MD5, .SOFTWARE, .EMAIL_ADDRESS, .IP, .CIDR_BLOCK, .DOMAIN,
   .URL, .MALWARE, .CVE, .REGISTRY_KEY]

/-- An artifact as assembled by `_create_artifact` (lines 769-778) from one
indicator value: the single-entry `cef`/`cef_types` dictionaries are flattened
into the CEF field name, the value and the contains-tags; `run_automation`
records whether the `run_automation` key was added (true iff the running
created-count equals the expected count). -/
structure IngestArtifact where
  name : String
  cef_name : String
  value : String
  cef_contains : List String
  container_id : Int
  run_automation : Bool
  deriving DecidableEq

/-- The artifact `_create_artifact` assembles for one indicator value, with
`artifactCreated` the running counter after incrementing for this value and
`artifactCount` the expected total (line 774: the automation flag is set iff
they are equal). -/
def _create_artifact_spec (details : CefDetails) (iocValue : String) (containerId : Int)
    (artifactCreated artifactCount : Nat) : IngestArtifact :=
  { name := details.artifact_name
    cef_name := details.cef_name
    value := iocValue
    cef_contains := details.cef_contains
    container_id := containerId
    run_automation := artifactCreated == artifactCount }

/-- The inner loop of `_ingest_data` (lines 863-870): one artifact per value
of one indicator type, incrementing the created-counter before each
`_create_artifact` call. -/
def ingestTypeValues (details : CefDetails) (values : List String) (containerId : Int)
    (created count : Nat) : List IngestArtifact :=
  match values with
  | [] => []
  | v :: vs =>
    _create_artifact_spec details v containerId (created + 1) count ::
      ingestTypeValues details vs containerId (created + 1) count

/-- The outer loop of `_ingest_data` (lines 850-870): iterate over the
`cef_mapping` table, look the type up in the payload (`dict.get`, modelled as
a total function with `[]` for a missing or empty entry — the `if ioc_values:`
guard makes the two indistinguishable), and emit the values of that type. -/
def _ingest_data_loop (types : List IocType) (indicators : IocType → List String)
    (containerId : Int) (created count : Nat) : List IngestArtifact :=
  match types with
  | [] => []
  | t :: ts =>
    ingestTypeValues (cef_mapping t) (indicators t) containerId created count ++
      _ingest_data_loop ts indicators containerId (created + (indicators t).length) count

/-- `_ingest_data` (lines 789-872), after the container has been created:
the full ordered sequence of artifacts it saves. -/
def _ingest_data (indicators : IocType → List String) (containerId : Int)
    (artifactCount : Nat) : List IngestArtifact :=
  _ingest_data_loop cef_mapping_order indicators containerId 0 artifactCount

/-- The total number of indicator values across all types of a payload, which
is what `_on_poll` (lines 931-935) passes to `_ingest_data` as the expected
artifact count. -/
def totalIndicators (indicators : IocType → List String) : Nat :=
  (cef_mapping_order.map (fun t => (indicators t).length)).sum

/-- The sequence of `run_automation` flags of `n` consecutively emitted
artifacts when the counter starts at `created` and the expected count is
`count`: specification helper for reasoning about `_ingest_data`. -/
def flagsFrom (created n count : Nat) : List Bool :=
  match n with
  | 0 => []
  | m + 1 => (created + 1 == count) :: flagsFrom (created + 1) m count

/-- Modelled from the spec: `TRUSTAR_REASON_FOR_REPORT_UNAVAILABILITY` of
`trustar_consts.py` (not in `src/`), the unavailability note of the hunting
actions. -/
def TRUSTAR_REASON_FOR_REPORT_UNAVAILABILITY : String :=
  "Report might not be available for the queried IOC"

/-- One result record `{"report_id": id}` added by a hunting action. -/
structure ReportRecord where
  report_id : String
  deriving DecidableEq

/-- The summary a hunting action writes. -/
structure HuntSummary where
  total_correlated_reports : Nat
  possible_reason : Option String
  deriving DecidableEq

/-- The response-shaping tail shared by all hunting actions (`_hunt_ip`,
lines 350-358, and its seven clones): given the JSON array of report ids from
a successful correlation-search call, the ordered result records and the
summary. -/
def _hunt_process (response : List String) : List ReportRecord × HuntSummary :=
  (response.map (fun r => { report_id := r }),
   { total_correlated_reports := response.length
     possible_reason :=
       if response.length = 0 then some TRUSTAR_REASON_FOR_REPORT_UNAVAILABILITY else none })

/-- Key order used by `json.dumps(..., sort_keys=True)`: lexicographic string
order of the keys. -/
def keyLe (a b : String × PyJson) : Bool :=
  a.1 ≤ b.1

mutual

/-- The canonical form `json.dumps(input_dict, sort_keys=True)` serializes:
the fields of every object sorted by key, recursively. -/
def canonical : PyJson → PyJson
  | .obj fs => .obj ((canonicalFields fs).mergeSort keyLe)
  | .arr es => .arr (canonicalList es)
  | .str s => .str s
  | .int n => .int n
  | .bool b => .bool b
  | .null => .null

/-- Canonicalize the values of the fields of an object. -/
def canonicalFields : List (String × PyJson) → List (String × PyJson)
  | [] => []
  | (k, v) :: rest => (k, canonical v) :: canonicalFields rest

/-- Canonicalize the elements of an array. -/
def canonicalList : List PyJson → List PyJson
  | [] => []
  | v :: rest => canonical v :: canonicalList rest

end

mutual

/-- A JSON rendering of a `PyJson` value, standing for the string
`json.dumps` produces from the canonical form (separator and escaping details
are cosmetic: only equality of renderings matters to the claims). -/
def renderJson : PyJson → String
  | .str s => "\"" ++ s ++ "\""
  | .int n => toString n
  | .bool b => if b then "true" else "false"
  | .null => "null"
  | .arr es => "[" ++ renderJsonList es ++ "]"
  | .obj fs => "\x7b" ++ renderJsonFields fs ++ "\x7d"

/-- Render array elements, comma-separated. -/
def renderJsonList : List PyJson → String
  | [] => ""
  | [v] => renderJson v
  | v :: rest => renderJson v ++ ", " ++ renderJsonList rest

/-- Render object fields, comma-separated. -/
def renderJsonFields : List (String × PyJson) → String
  | [] => ""
  | [(k, v)] => "\"" ++ k ++ "\": " ++ renderJson v
  | (k, v) :: rest => "\"" ++ k ++ "\": " ++ renderJson v ++ ", " ++ renderJsonFields rest

end

/-- `_create_dict_hash` (lines 736-755): `None` for an empty (falsy)
dictionary, otherwise the MD5 hex digest of
`json.dumps(input_dict, sort_keys=True)`.  MD5 is a fixed deterministic
function of that string, so the digest is modelled by the serialized string
itself: two inputs get equal digests whenever these strings are equal, which
is the only property the claims use. -/
def _create_dict_hash (fields : List (String × PyJson)) : Option String :=
  if fields.isEmpty then none
  else some (renderJson (canonical (.obj fields)))

/-- The artifact dictionary `_create_artifact` (lines 769-778) builds before
hashing: the five base fields, plus the `run_automation` key exactly when the
running created-count equals the expected count.  The
`source_data_identifier` is computed on this fully-populated dictionary. -/
def _create_artifact_dict (artifactName : String) (cef cefTypes : List (String × PyJson))
    (containerId : Int) (artifactCreated artifactCount : Nat) : List (String × PyJson) :=
  let base : List (String × PyJson) :=
    [("name", .str artifactName), ("description", .str "TruSTAR artifacts"),
     ("cef_types", .obj cefTypes), ("cef", .obj cef), ("container_id", .int containerId)]
  if artifactCreated == artifactCount then base ++ [("run_automation", .bool true)] else base

/-- The `source_data_identifier` of the artifact `_create_artifact` saves
(line 778): the hash of the fully-populated artifact dictionary. -/
def _create_artifact_identifier (artifactName : String) (cef cefTypes : List (String × PyJson))
    (containerId : Int) (artifactCreated artifactCount : Nat) : Option String :=
  _create_dict_hash
    (_create_artifact_dict artifactName cef cefTypes containerId artifactCreated artifactCount)

/-- The fixed error table is empty on the 2xx range. -/
theorem ERROR_RESPONSE_DICT_eq_none_of_2xx (status : Nat) (h1 : 200 ≤ status)
    (h2 : status ≤ 299) : ERROR_RESPONSE_DICT status = none := by
  unfold ERROR_RESPONSE_DICT
  split_ifs <;> first | rfl | omega

/-- Claim C1: for every 2xx response, `_make_rest_call` returns Success iff
the parsed body is a JSON object (dict) or JSON array (list); any other body
shape on a 2xx status yields the unexpected-response-shape error, never
Success. -/
theorem make_rest_call_success_shape (status : Nat) (rd : PyJson)
    (h1 : 200 ≤ status) (h2 : status ≤ 299) :
    (_make_rest_call_classify status rd = .success rd ↔ (rd.isDict || rd.isList) = true) ∧
    ((rd.isDict || rd.isList) = false →
      _make_rest_call_classify status rd = .unexpectedShape rd ∧
      ∀ p, _make_rest_call_classify status rd ≠ .success p) := by
  have htab := ERROR_RESPONSE_DICT_eq_none_of_2xx status h1 h2
  have hsucc : statusIsSuccess status = true := by
    simp only [statusIsSuccess, Bool.and_eq_true, decide_eq_true_eq]
    omega
  unfold _make_rest_call_classify
  rw [htab, hsucc]
  cases rd <;> simp [PyJson.isDict, PyJson.isList]

/-- Witness for C1 at status 200: an array body is accepted, a string body is
rejected with the unexpected-shape outcome. -/
theorem make_rest_call_success_shape_witness :
    (_make_rest_call_classify 200 (.arr []) = .success (.arr []) ↔
      ((PyJson.arr []).isDict || (PyJson.arr []).isList) = true) ∧
    (((PyJson.str "ok").isDict || (PyJson.str "ok").isList) = false →
      _make_rest_call_classify 200 (.str "ok") = .unexpectedShape (.str "ok") ∧
      ∀ p, _make_rest_call_classify 200 (.str "ok") ≠ .success p) :=
  ⟨(make_rest_call_success_shape 200 (.arr []) (by decide) (by decide)).1,
   (make_rest_call_success_shape 200 (.str "ok") (by decide) (by decide)).2⟩

/-- Claim C2: each of 400, 401, 404, 413, 500, 504 maps to a server error
carrying its fixed default message; every other non-success status maps to
the generic other-error message; in both cases a `message` field of a JSON
object body overrides the default. -/
theorem make_rest_call_error_table (status : Nat) (rd : PyJson) :
    (∀ dflt, ERROR_RESPONSE_DICT status = some dflt →
      _make_rest_call_classify status rd = .serverError status (overrideMessage rd dflt)) ∧
    (ERROR_RESPONSE_DICT status = none → statusIsSuccess status = false →
      _make_rest_call_classify status rd =
        .serverError status (overrideMessage rd TRUSTAR_REST_RESP_OTHER_ERROR_MSG)) ∧
    (∀ fields v dflt, rd = .obj fields → PyJson.lookupField "message" fields = some v →
      overrideMessage rd dflt = v) ∧
    (∀ fields dflt, rd = .obj fields → PyJson.lookupField "message" fields = none →
      overrideMessage rd dflt = .str dflt) ∧
    (∀ dflt, rd.isDict = false → overrideMessage rd dflt = .str dflt) ∧
    (ERROR_RESPONSE_DICT 400 = some TRUSTAR_REST_RESP_BAD_REQUEST_MSG ∧
     ERROR_RESPONSE_DICT 401 = some TRUSTAR_REST_RESP_UNAUTHORIZED_MSG ∧
     ERROR_RESPONSE_DICT 404 = some TRUSTAR_REST_RESP_RESOURCE_NOT_FOUND_MSG ∧
     ERROR_RESPONSE_DICT 413 = some TRUSTAR_REST_RESP_TOO_LONG_MSG ∧
     ERROR_RESPONSE_DICT 500 = some TRUSTAR_REST_RESP_INTERNAL_SERVER_ERROR_MSG ∧
     ERROR_RESPONSE_DICT 504 = some TRUSTAR_REST_RESP_GATEWAY_TIMEOUT_MSG) := by
  refine ⟨?_, ?_, ?_, ?_, ?_, by decide⟩
  · intro dflt hd
    unfold _make_rest_call_classify
    rw [hd]
  · intro hd hs
    unfold _make_rest_call_classify
    rw [hd, hs]
    simp
  · intro fields v dflt hrd hlook
    subst hrd
    simp [overrideMessage, hlook]
  · intro fields dflt hrd hlook
    subst hrd
    simp [overrideMessage, hlook]
  · intro dflt hdict
    cases rd <;> simp_all [overrideMessage, PyJson.isDict]

/-- Witness for C2 at status 404 with a `message`-bearing object body: the
message of the body wins over the table default. -/
theorem make_rest_call_error_table_witness :
    _make_rest_call_classify 404 (.obj [("message", .str "oops")]) =
      .serverError 404
        (overrideMessage (.obj [("message", .str "oops")]) TRUSTAR_REST_RESP_RESOURCE_NOT_FOUND_MSG) ∧
    overrideMessage (.obj [("message", .str "oops")]) TRUSTAR_REST_RESP_RESOURCE_NOT_FOUND_MSG =
      .str "oops" :=
  ⟨(make_rest_call_error_table 404 (.obj [("message", .str "oops")])).1 _ rfl, rfl⟩

/-- Claim C9: a hunting action given a successful correlation-search response
of n report ids emits exactly n result records, one per id, in order, sets
the summary total to n, and sets the unavailability note exactly when n is
zero. -/
theorem hunt_process_records_and_summary (response : List String) :
    (_hunt_process response).1 = response.map (fun r => { report_id := r }) ∧
    (_hunt_process response).1.length = response.length ∧
    (_hunt_process response).2.total_correlated_reports = response.length ∧
    (_hunt_process response).2.possible_reason =
      (if response.length = 0 then some TRUSTAR_REASON_FOR_REPORT_UNAVAILABILITY else none) := by
  simp [_hunt_process]

/-- `pyCeilDiv` at a positive denominator is the exact rational ceiling, so
`int(math.ceil(diff / 3600.0))` computes the ceiling of `diff / 3600`. -/
theorem pyCeilDiv_eq_ceil (a : Int) :
    pyCeilDiv a 3600 = ⌈(a : ℚ) / (3600 : ℚ)⌉ := by
  have h1 : ((a : ℚ) / (3600 : ℚ)) = -(((-a : Int) : ℚ) / ((3600 : Nat) : ℚ)) := by
    push_cast
    ring
  rw [h1, Int.ceil_neg, Rat.floor_intCast_div_natCast, pyCeilDiv]
  congr 1
  rw [Int.fdiv_eq_ediv _ (by norm_num)]
  norm_num

/-- Claim C6: a scheduled non-first `on_poll` run sends
`intervalSize = ceil((end/1000 - start/1000) / 3600)` (milliseconds floored
to seconds by Python 2 integer division, then the exact hour ceiling); in
particular start 0 ms and end 7200000 ms give intervalSize 2; poll-now runs
and the first scheduled run (first_run state absent or true) send no interval
filter. -/
theorem on_poll_interval_size (startTime endTime : Int) :
    (_on_poll false (some false) startTime endTime).1 =
      some (pyCeilDiv (endTime.fdiv 1000 - startTime.fdiv 1000) 3600) ∧
    pyCeilDiv (endTime.fdiv 1000 - startTime.fdiv 1000) 3600 =
      ⌈((endTime.fdiv 1000 - startTime.fdiv 1000 : Int) : ℚ) / (3600 : ℚ)⌉ ∧
    (_on_poll false (some false) 0 7200000).1 = some 2 ∧
    (∀ st, (_on_poll true st startTime endTime).1 = none) ∧
    (_on_poll false none startTime endTime).1 = none ∧
    (_on_poll false (some true) startTime endTime).1 = none := by
  refine ⟨by simp [_on_poll], ?_, by decide, ?_, by simp [_on_poll], by simp [_on_poll]⟩
  · rw [pyCeilDiv_eq_ceil]
  · intro st
    simp [_on_poll]

/-- Counterexample to claim C4 as stated: `dateutil.parser.parse` turns an
offset-bearing string such as "2017-02-23T23:01:54+0500" into a timezone-aware
datetime (modelled here with wall reading 0 and offset +300 minutes), and
`_normalize_timestamp` returns it unchanged, with its original +0500 offset —
not converted to UTC (`tz ≠ some 0`), contradicting "an input carrying any
timezone is converted to UTC". -/
theorem normalize_timestamp_not_utc_counterexample :
    _normalize_timestamp (fun _ => some { wall := 0, tz := some 300 }) 0 0
        (.ofString "2017-02-23T23:01:54+0500") = some { wall := 0, tz := some 300 } ∧
    (some 300 : Option Int) ≠ some 0 := by
  exact ⟨rfl, by decide⟩

/-- Claim C4 as amended: for every parseable input timestamp (a string the
parser accepts, or a structured datetime), normalization succeeds and
preserves the denoted instant; an input carrying no timezone is interpreted
in the local timezone and converted to UTC (offset `some 0`); an input
carrying a timezone is returned unchanged, keeping its original offset — in
particular an already-UTC input stays UTC, but a non-UTC aware input is not
converted to UTC. -/
theorem normalize_timestamp_amended (parse : String → Option PyDatetime)
    (now localOffset : Int) (inp : TimeDiscovered) (d : PyDatetime)
    (hd : (inp = .ofDatetime d) ∨ (∃ s, inp = .ofString s ∧ parse s = some d)) :
    _normalize_timestamp parse now localOffset inp =
      some (_normalize_timestamp_finish localOffset d) ∧
    (d.tz = none →
      _normalize_timestamp_finish localOffset d = { wall := d.wall - localOffset, tz := some 0 } ∧
      (_normalize_timestamp_finish localOffset d).instant = some (d.wall - localOffset)) ∧
    (∀ o, d.tz = some o →
      _normalize_timestamp_finish localOffset d = d ∧
      (_normalize_timestamp_finish localOffset d).instant = d.instant) := by
  refine ⟨?_, ?_, ?_⟩
  · rcases hd with h | ⟨s, hs, hparse⟩
    · subst h
      rfl
    · subst hs
      simp [_normalize_timestamp, hparse]
  · intro hnone
    constructor
    · simp [_normalize_timestamp_finish, hnone, astimezone_utc, pytz_localize]
    · simp [_normalize_timestamp_finish, hnone, astimezone_utc, pytz_localize,
            PyDatetime.instant]
  · intro o ho
    have hfin : _normalize_timestamp_finish localOffset d = d := by
      simp [_normalize_timestamp_finish, ho]
    exact ⟨hfin, by rw [hfin]⟩

/-- Witness for the amended C4: a naive datetime input with wall reading 500
under local offset +60 normalizes to the UTC value with wall 440. -/
theorem normalize_timestamp_amended_witness :
    _normalize_timestamp (fun _ => none) 0 60 (.ofDatetime { wall := 500, tz := none }) =
      some (_normalize_timestamp_finish 60 { wall := 500, tz := none }) ∧
    ((none : Option Int) = none →
      _normalize_timestamp_finish 60 { wall := 500, tz := none } =
        { wall := 440, tz := some 0 } ∧
      (_normalize_timestamp_finish 60 { wall := 500, tz := none }).instant = some 440) := by
  have h := normalize_timestamp_amended (fun _ => none) 0 60
    (.ofDatetime { wall := 500, tz := none }) { wall := 500, tz := none } (Or.inl rfl)
  exact ⟨h.1, fun _ => by
    have h2 := h.2.1 rfl
    constructor
    · rw [h2.1]
      norm_num
    · rw [h2.2]
      norm_num⟩

/-- Counterexample to claim C5 as stated: with distribution type ENCLAVE, no
enclave ids, and an unparseable `time_discovered` string, `_submit_report`
fails with the time-format error (the timestamp is normalized before the
enclave check, lines 676-682), not with the missing-enclave-id error.  No
network call is made either way. -/
theorem submit_report_enclave_counterexample :
    _submit_report (fun _ => none) 0 0
      { report_title := "t", report_body := "b", distribution_type := "ENCLAVE",
        enclave_ids := none, time_discovered := .ofString "not a timestamp",
        external_tracking_id := none, api_version := none } = .errTimeFormat ∧
    SubmitOutcome.errTimeFormat ≠ SubmitOutcome.errMissingEnclave := by
  exact ⟨rfl, by decide⟩

/-- Claim C5 as amended: for every `_submit_report` invocation with
distribution type ENCLAVE and no enclave ids supplied (absent or empty), no
network call is performed (neither token generation nor report submission),
and the action fails with the missing-enclave-id validation error provided
the time-discovered parameter normalizes successfully; if it does not, the
action fails first with the timestamp validation error, still without any
network call. -/
theorem submit_report_enclave_requires_ids (parse : String → Option PyDatetime)
    (now localOffset : Int) (p : SubmitParam)
    (hdist : p.distribution_type = "ENCLAVE") (hids : pyTruthyStr p.enclave_ids = false) :
    submitNetworkAttempted (_submit_report parse now localOffset p) = false ∧
    (∀ t, _normalize_timestamp parse now localOffset p.time_discovered = some t →
      _submit_report parse now localOffset p = .errMissingEnclave) ∧
    (_normalize_timestamp parse now localOffset p.time_discovered = none →
      _submit_report parse now localOffset p = .errTimeFormat) := by
  refine ⟨?_, ?_, ?_⟩
  · unfold _submit_report
    cases h : _normalize_timestamp parse now localOffset p.time_discovered with
    | none => rfl
    | some t =>
      simp [hdist, hids, submitNetworkAttempted]
  · intro t ht
    unfold _submit_report
    rw [ht]
    simp [hdist, hids]
  · intro ht
    unfold _submit_report
    rw [ht]

/-- Witness for the amended C5: ENCLAVE with absent enclave ids and an absent
timestamp fails with the missing-enclave-id error and performs no network
call. -/
theorem submit_report_enclave_requires_ids_witness :
    submitNetworkAttempted (_submit_report (fun _ => none) 7 0
      { report_title := "t", report_body := "b", distribution_type := "ENCLAVE",
        enclave_ids := none, time_discovered := .absent,
        external_tracking_id := none, api_version := none }) = false ∧
    _submit_report (fun _ => none) 7 0
      { report_title := "t", report_body := "b", distribution_type := "ENCLAVE",
        enclave_ids := none, time_discovered := .absent,
        external_tracking_id := none, api_version := none } = .errMissingEnclave := by
  have h := submit_report_enclave_requires_ids (fun _ => none) 7 0
    { report_title := "t", report_body := "b", distribution_type := "ENCLAVE",
      enclave_ids := none, time_discovered := .absent,
      external_tracking_id := none, api_version := none } rfl rfl
  exact ⟨h.1, h.2.1 _ rfl⟩

/-- Claim C10: with the time-discovered parameter absent, normalization never
fails — the timestamp defaults to the current system time, localized to the
local timezone and converted to UTC — so the time-format error is never
raised; that error occurs only for a supplied string the parser rejects. -/
theorem submit_report_absent_time_defaults (parse : String → Option PyDatetime)
    (now localOffset : Int) :
    (∀ p : SubmitParam, p.time_discovered = .absent →
      _submit_report parse now localOffset p ≠ .errTimeFormat) ∧
    (_normalize_timestamp parse now localOffset .absent =
      some (astimezone_utc (pytz_localize localOffset { wall := now, tz := none }))) ∧
    (_normalize_timestamp parse now localOffset .absent =
      some { wall := now - localOffset, tz := some 0 }) ∧
    (∀ inp, _normalize_timestamp parse now localOffset inp = none →
      ∃ s, inp = .ofString s ∧ parse s = none) := by
  refine ⟨?_, rfl, ?_, ?_⟩
  · intro p hp
    unfold _submit_report
    rw [hp]
    simp only [_normalize_timestamp]
    split <;> simp
  · simp [_normalize_timestamp, _normalize_timestamp_finish, astimezone_utc, pytz_localize]
  · intro inp hnone
    cases inp with
    | absent => simp [_normalize_timestamp] at hnone
    | ofString s =>
      refine ⟨s, rfl, ?_⟩
      cases h : parse s with
      | none => rfl
      | some d => simp [_normalize_timestamp, h] at hnone
    | ofDatetime d => simp [_normalize_timestamp] at hnone

/-- Witness for C10: a submit invocation with absent time-discovered does not
fail with the time-format error. -/
theorem submit_report_absent_time_defaults_witness :
    _submit_report (fun _ => none) 3 1
      { report_title := "t", report_body := "b", distribution_type := "COMMUNITY",
        enclave_ids := none, time_discovered := .absent,
        external_tracking_id := none, api_version := none } ≠ .errTimeFormat :=
  (submit_report_absent_time_defaults (fun _ => none) 3 1).1 _ rfl

/-- Python `split` on a one-character separator never returns an empty list. -/
theorem splitOnChar_ne_nil (c : Char) (s : List Char) : splitOnChar c s ≠ [] := by
  induction s with
  | nil => simp [splitOnChar]
  | cons x xs ih =>
    simp only [splitOnChar]
    split_ifs with h
    · simp
    · cases hr : splitOnChar c xs <;> simp

/-- If splitting on a character produces two or more pieces, the character
occurs in the string. -/
theorem mem_of_two_le_splitOnChar_length (c : Char) (s : List Char)
    (h : 2 ≤ (splitOnChar c s).length) : c ∈ s := by
  induction s with
  | nil => simp [splitOnChar] at h
  | cons x xs ih =>
    simp only [splitOnChar] at h
    by_cases hx : x = c
    · subst hx
      exact List.mem_cons_self x xs
    · rw [if_neg hx] at h
      apply List.mem_cons_of_mem
      apply ih
      cases hr : splitOnChar c xs with
      | nil => exact absurd hr (splitOnChar_ne_nil c xs)
      | cons p ps =>
        rw [hr] at h
        simpa using h

/-- A dotted-quad IPv4 address contains a dot (it splits into four pieces). -/
theorem dottedQuad_contains_dot (s : List Char) (h : isDottedQuad s = true) :
    '.' ∈ s := by
  apply mem_of_two_le_splitOnChar_length
  unfold isDottedQuad at h
  split at h
  · rename_i heq
    rw [heq]
    simp
  · simp at h

/-- A colon-form IPv6 address contains a colon (it splits into two or more
pieces). -/
theorem ipv6_contains_colon (s : List Char) (h : _is_ipv6 s = true) : ':' ∈ s := by
  apply mem_of_two_le_splitOnChar_length
  by_contra hlt
  push_neg at hlt
  have hle : (splitOnChar ':' s).length ≤ 1 := by omega
  unfold _is_ipv6 at h
  simp only [inet_pton_ipv6] at h
  rw [if_pos (by simpa using hle)] at h
  simp at h

/-- Claim C7: `_is_ip` accepts an input only if the address part passes the
IPv4 or the IPv6 validator and the numeric prefix (0 when no slash is
present) lies in 0-32 for an IPv4 address and 0-128 for an IPv6 address; in
particular "10.0.0.1/33" is rejected. -/
theorem is_ip_only_if :
    (∀ (s ipAddr : List Char) (netMask : Int), _is_ip s = true →
      _break_ip_address s = some (ipAddr, netMask) →
      (phantom_is_ip ipAddr = true ∨ _is_ipv6 ipAddr = true) ∧
      (phantom_is_ip ipAddr = true → 0 ≤ netMask ∧ netMask ≤ 32) ∧
      (_is_ipv6 ipAddr = true → 0 ≤ netMask ∧ netMask ≤ 128)) ∧
    (∀ s : List Char, '/' ∉ s → _break_ip_address s = some (s, 0)) ∧
    _is_ip ("10.0.0.1/33".toList) = false := by
  refine ⟨?_, ?_, by decide⟩
  · intro s ipAddr netMask hacc hbreak
    unfold _is_ip at hacc
    simp only [hbreak] at hacc
    split_ifs at hacc with h1 h2
    push_neg at h2
    have hval : phantom_is_ip ipAddr = true ∨ _is_ipv6 ipAddr = true := by
      simp only [Bool.not_eq_true', Bool.or_eq_false_iff, not_and_or] at h1
      rcases h1 with h | h
      · left
        simpa using h
      · right
        simpa using h
    refine ⟨hval, ?_, ?_⟩
    · intro hp4
      exact h2.2 (dottedQuad_contains_dot ipAddr hp4)
    · intro hp6
      exact h2.1 (ipv6_contains_colon ipAddr hp6)
  · intro s hs
    unfold _break_ip_address
    rw [if_neg hs]

/-- Witness for C7: "10.0.0.1/24" is accepted, its address part passes the
IPv4 validator, and its prefix 24 lies in 0-32. -/
theorem is_ip_only_if_witness :
    (phantom_is_ip ("10.0.0.1".toList) = true ∨ _is_ipv6 ("10.0.0.1".toList) = true) ∧
    (phantom_is_ip ("10.0.0.1".toList) = true → 0 ≤ (24 : Int) ∧ (24 : Int) ≤ 32) ∧
    (_is_ipv6 ("10.0.0.1".toList) = true → 0 ≤ (24 : Int) ∧ (24 : Int) ≤ 128) :=
  is_ip_only_if.1 ("10.0.0.1/24".toList) ("10.0.0.1".toList) 24 (by decide) (by decide)

/-- The values of the artifacts emitted for one indicator type are exactly
the value list of that type, in order. -/
theorem ingestTypeValues_map_value (det : CefDetails) (vs : List String) (cid : Int) :
    ∀ created count,
      (ingestTypeValues det vs cid created count).map (fun a => a.value) = vs := by
  induction vs with
  | nil => intro created count; rfl
  | cons v vs ih =>
    intro created count
    simp [ingestTypeValues, _create_artifact_spec, ih]

/-- The automation flags of the artifacts emitted for one indicator type are
the `flagsFrom` sequence. -/
theorem ingestTypeValues_map_flag (det : CefDetails) (vs : List String) (cid : Int) :
    ∀ created count,
      (ingestTypeValues det vs cid created count).map (fun a => a.run_automation) =
        flagsFrom created vs.length count := by
  induction vs with
  | nil => intro created count; rfl
  | cons v vs ih =>
    intro created count
    simp [ingestTypeValues, _create_artifact_spec, flagsFrom, ih]

/-- `flagsFrom` splits along a sum of lengths, shifting the counter. -/
theorem flagsFrom_append (a b : Nat) : ∀ created count,
    flagsFrom created (a + b) count =
      flagsFrom created a count ++ flagsFrom (created + a) b count := by
  induction a with
  | zero => intro created count; simp [flagsFrom]
  | succ m ih =>
    intro created count
    rw [show m + 1 + b = (m + b) + 1 from by omega]
    simp only [flagsFrom]
    rw [ih (created + 1) count]
    rw [show created + 1 + m = created + (m + 1) from by omega]
    simp

/-- The values of all emitted artifacts are the value lists of the payload,
flattened in table order, the values of each type in their original order. -/
theorem ingest_loop_map_value (ts : List IocType) (ind : IocType → List String) (cid : Int) :
    ∀ created count,
      (_ingest_data_loop ts ind cid created count).map (fun a => a.value) =
        (ts.map ind).flatten := by
  induction ts with
  | nil => intro created count; rfl
  | cons t ts ih =>
    intro created count
    simp only [_ingest_data_loop, List.map_append, List.map_cons, List.flatten_cons]
    rw [ingestTypeValues_map_value, ih]

/-- The automation flags of all emitted artifacts are the `flagsFrom`
sequence over the total number of values. -/
theorem ingest_loop_map_flag (ts : List IocType) (ind : IocType → List String) (cid : Int) :
    ∀ created count,
      (_ingest_data_loop ts ind cid created count).map (fun a => a.run_automation) =
        flagsFrom created ((ts.map (fun t => (ind t).length)).sum) count := by
  induction ts with
  | nil => intro created count; rfl
  | cons t ts ih =>
    intro created count
    simp only [_ingest_data_loop, List.map_append, List.map_cons, List.sum_cons]
    rw [ingestTypeValues_map_flag, ih, ← flagsFrom_append]

/-- Exactly one flag is set in a `flagsFrom` sequence iff the target count
falls inside the emitted window, and none otherwise. -/
theorem flagsFrom_countP (n : Nat) : ∀ created count,
    List.countP (fun b => b) (flagsFrom created n count) =
      if created < count ∧ count ≤ created + n then 1 else 0 := by
  induction n with
  | zero =>
    intro created count
    simp only [flagsFrom, List.countP_nil]
    rw [if_neg (by omega)]
  | succ m ih =>
    intro created count
    simp only [flagsFrom, List.countP_cons, ih (created + 1) count]
    simp only [beq_iff_eq]
    split_ifs <;> omega

/-- The first set flag in a `flagsFrom` sequence sits at the offset of the
target count inside the emitted window. -/
theorem flagsFrom_findIdx (n : Nat) : ∀ created count i,
    List.findIdx? (fun b => b) (flagsFrom created n count) i =
      if created < count ∧ count ≤ created + n then some (i + (count - created - 1))
      else none := by
  induction n with
  | zero =>
    intro created count i
    simp only [flagsFrom, List.findIdx?_nil]
    rw [if_neg (by omega)]
  | succ m ih =>
    intro created count i
    simp only [flagsFrom, List.findIdx?_cons]
    by_cases h : created + 1 = count
    · rw [if_pos (by simp [h])]
      rw [if_pos (by omega)]
      congr 1
      omega
    · rw [if_neg (by simp [h])]
      rw [ih (created + 1) count (i + 1)]
      split_ifs <;> first | rfl | (congr 1; omega)

/-- Counterexample to claim C3 as stated: a payload whose indicator mapping
is non-empty but carries zero values in total (reachable from `_on_poll`,
whose `if indicators:` guard only checks the dictionary, not the value
lists) emits zero artifacts, so no artifact at all carries the automation
flag — not exactly one. -/
theorem ingest_data_empty_counterexample :
    totalIndicators (fun _ => []) = 0 ∧
    _ingest_data (fun _ => []) 1 (totalIndicators (fun _ => [])) = [] ∧
    (_ingest_data (fun _ => []) 1 (totalIndicators (fun _ => []))).countP
      (fun a => a.run_automation) ≠ 1 := by
  refine ⟨rfl, rfl, by decide⟩

/-- Claim C3 as amended: for every ingestion payload with a positive total of
N indicator values across all types and expected count N, `_ingest_data`
emits exactly one artifact per value (N in total, preserving the order of
values within each type, concatenated in table order), and exactly one
emitted artifact carries the automation flag, namely the one whose 1-based
emission index equals N; a zero-value payload emits nothing and flags
nothing. -/
theorem ingest_data_artifacts_amended (indicators : IocType → List String)
    (containerId : Int) (n : Nat) (hn : n = totalIndicators indicators) (hpos : 1 ≤ n) :
    ((_ingest_data indicators containerId n).map (fun a => a.value) =
      (cef_mapping_order.map indicators).flatten) ∧
    (_ingest_data indicators containerId n).length = n ∧
    (_ingest_data indicators containerId n).countP (fun a => a.run_automation) = 1 ∧
    (_ingest_data indicators containerId n).findIdx? (fun a => a.run_automation) =
      some (n - 1) := by
  have hmapv : (_ingest_data indicators containerId n).map (fun a => a.value) =
      (cef_mapping_order.map indicators).flatten :=
    ingest_loop_map_value cef_mapping_order indicators containerId 0 n
  have hmapf0 : (_ingest_data indicators containerId n).map (fun a => a.run_automation) =
      flagsFrom 0 ((cef_mapping_order.map (fun t => (indicators t).length)).sum) n :=
    ingest_loop_map_flag cef_mapping_order indicators containerId 0 n
  have htot : (cef_mapping_order.map (fun t => (indicators t).length)).sum =
      totalIndicators indicators := rfl
  rw [htot, ← hn] at hmapf0
  refine ⟨hmapv, ?_, ?_, ?_⟩
  · have hlen := congrArg List.length hmapv
    rw [List.length_map] at hlen
    rw [hlen, List.length_flatten, List.map_map, hn]
    rfl
  · calc (_ingest_data indicators containerId n).countP (fun a => a.run_automation)
        = ((_ingest_data indicators containerId n).map
            (fun a => a.run_automation)).countP (fun b => b) :=
          (List.countP_map (fun b => b) (fun (a : IngestArtifact) => a.run_automation) _).symm
      _ = List.countP (fun b => b) (flagsFrom 0 n n) := by rw [hmapf0]
      _ = 1 := by
          rw [flagsFrom_countP]
          rw [if_pos (by omega)]
  · calc (_ingest_data indicators containerId n).findIdx? (fun a => a.run_automation)
        = ((_ingest_data indicators containerId n).map
            (fun a => a.run_automation)).findIdx? (fun b => b) :=
          (@List.findIdx?_map _ _ (fun b => b) (fun (a : IngestArtifact) => a.run_automation) _).symm
      _ = List.findIdx? (fun b => b) (flagsFrom 0 n n) := by rw [hmapf0]
      _ = some (n - 1) := by
          rw [flagsFrom_findIdx]
          rw [if_pos (by omega)]
          congr 1
          omega

/-- Witness for the amended C3: a payload with a single IP indicator value
emits one artifact, flagged, at 1-based index 1. -/
theorem ingest_data_artifacts_amended_witness :
    ((_ingest_data (fun t => match t with | .IP => ["8.8.8.8"] | _ => []) 1 1).map
        (fun a => a.value) =
      (cef_mapping_order.map (fun t => match t with | .IP => ["8.8.8.8"] | _ => [])).flatten) ∧
    (_ingest_data (fun t => match t with | .IP => ["8.8.8.8"] | _ => []) 1 1).length = 1 ∧
    (_ingest_data (fun t => match t with | .IP => ["8.8.8.8"] | _ => []) 1 1).countP
      (fun a => a.run_automation) = 1 ∧
    (_ingest_data (fun t => match t with | .IP => ["8.8.8.8"] | _ => []) 1 1).findIdx?
      (fun a => a.run_automation) = some 0 :=
  ingest_data_artifacts_amended (fun t => match t with | .IP => ["8.8.8.8"] | _ => []) 1 1
    (by decide) (by decide)

/-- The key order of the canonical serialization is transitive. -/
theorem keyLe_trans_bool (a b c : String × PyJson) (h1 : keyLe a b = true)
    (h2 : keyLe b c = true) : keyLe a c = true := by
  simp only [keyLe, decide_eq_true_eq] at h1 h2 ⊢
  exact le_trans h1 h2

/-- The key order of the canonical serialization is total. -/
theorem keyLe_total_bool (a b : String × PyJson) : (keyLe a b || keyLe b a) = true := by
  simp only [keyLe, Bool.or_eq_true, decide_eq_true_eq]
  exact le_total _ _

/-- Two key-sorted association lists with duplicate-free keys that are
permutations of each other are equal. -/
theorem sortedPairs_perm_eq : ∀ (l₁ l₂ : List (String × PyJson)), l₁.Perm l₂ →
    l₁.Pairwise (fun a b => keyLe a b = true) →
    l₂.Pairwise (fun a b => keyLe a b = true) →
    (l₁.map Prod.fst).Nodup → l₁ = l₂ := by
  intro l₁
  induction l₁ with
  | nil =>
    intro l₂ hp _ _ _
    exact (List.Perm.eq_nil hp.symm).symm
  | cons a t₁ ih =>
    intro l₂ hp hs₁ hs₂ hnd
    rw [List.map_cons] at hnd
    have hndc := List.nodup_cons.mp hnd
    cases l₂ with
    | nil => exact absurd (List.Perm.eq_nil hp) (by simp)
    | cons b t₂ =>
      have hab : a = b := by
        by_contra hne
        have hamem : a ∈ b :: t₂ := hp.mem_iff.mp (List.mem_cons_self a t₁)
        have hbmem : b ∈ a :: t₁ := hp.symm.mem_iff.mp (List.mem_cons_self b t₂)
        have ha2 : a ∈ t₂ := by
          rcases List.mem_cons.mp hamem with h | h
          · exact absurd h hne
          · exact h
        have hb1 : b ∈ t₁ := by
          rcases List.mem_cons.mp hbmem with h | h
          · exact absurd h.symm hne
          · exact h
        have hle1 : a.1 ≤ b.1 := by
          have := (List.pairwise_cons.mp hs₁).1 b hb1
          simpa [keyLe] using this
        have hle2 : b.1 ≤ a.1 := by
          have := (List.pairwise_cons.mp hs₂).1 a ha2
          simpa [keyLe] using this
        have hkey : a.1 = b.1 := le_antisymm hle1 hle2
        have hmem : a.1 ∈ t₁.map Prod.fst := by
          rw [hkey]
          exact List.mem_map_of_mem Prod.fst hb1
        exact hndc.1 hmem
      subst hab
      have htail := ih t₂ hp.cons_inv (List.pairwise_cons.mp hs₁).2
        (List.pairwise_cons.mp hs₂).2 hndc.2
      rw [htail]

/-- Sorting by key is invariant under permutation when keys are
duplicate-free: the heart of `sort_keys=True` canonicalization. -/
theorem mergeSort_keyLe_congr (l₁ l₂ : List (String × PyJson)) (hp : l₁.Perm l₂)
    (hnd : (l₁.map Prod.fst).Nodup) : l₁.mergeSort keyLe = l₂.mergeSort keyLe := by
  apply sortedPairs_perm_eq
  · exact (List.mergeSort_perm l₁ keyLe).trans (hp.trans (List.mergeSort_perm l₂ keyLe).symm)
  · exact List.sorted_mergeSort keyLe_trans_bool keyLe_total_bool l₁
  · exact List.sorted_mergeSort keyLe_trans_bool keyLe_total_bool l₂
  · have hperm : ((l₁.mergeSort keyLe).map Prod.fst).Perm (l₁.map Prod.fst) :=
      (List.mergeSort_perm l₁ keyLe).map Prod.fst
    exact hperm.nodup_iff.mpr hnd

/-- `canonicalFields` maps canonicalization over the values, keeping keys. -/
theorem canonicalFields_eq_map (l : List (String × PyJson)) :
    canonicalFields l = l.map (fun p => (p.1, canonical p.2)) := by
  induction l with
  | nil => rfl
  | cons p rest ih =>
    cases p
    simp [canonicalFields, ih]

/-- Canonicalizing an object is invariant under permutation of its fields
when the keys are duplicate-free. -/
theorem canonical_mergeSort_congr (f₁ f₂ : List (String × PyJson)) (hp : f₁.Perm f₂)
    (hnd : (f₁.map Prod.fst).Nodup) :
    (canonicalFields f₁).mergeSort keyLe = (canonicalFields f₂).mergeSort keyLe := by
  apply mergeSort_keyLe_congr
  · rw [canonicalFields_eq_map, canonicalFields_eq_map]
    exact hp.map _
  · rw [canonicalFields_eq_map, List.map_map]
    exact hnd

/-- Claim C8: the `source_data_identifier` of an emitted artifact is a
deterministic function of its fully-populated fields — name, cef mapping,
cef_types mapping, container reference, and the automation flag, which is set
before the hash is computed.  Structural equality of the mappings is taken up
to field order (a Python dict is an unordered key-value map; `sort_keys=True`
canonicalizes it), so two artifacts with equal fields collapse to the same
identifier. -/
theorem artifact_identifier_deterministic (artifactName : String)
    (cef₁ cef₂ ct₁ ct₂ : List (String × PyJson)) (containerId : Int)
    (created₁ count₁ created₂ count₂ : Nat)
    (hcef : cef₁.Perm cef₂) (hcefnd : (cef₁.map Prod.fst).Nodup)
    (hct : ct₁.Perm ct₂) (hctnd : (ct₁.map Prod.fst).Nodup)
    (hflag : (created₁ == count₁) = (created₂ == count₂)) :
    _create_artifact_identifier artifactName cef₁ ct₁ containerId created₁ count₁ =
      _create_artifact_identifier artifactName cef₂ ct₂ containerId created₂ count₂ := by
  have hm1 := canonical_mergeSort_congr cef₁ cef₂ hcef hcefnd
  have hm2 := canonical_mergeSort_congr ct₁ ct₂ hct hctnd
  unfold _create_artifact_identifier _create_artifact_dict _create_dict_hash
  rw [hflag]
  cases hb : (created₂ == count₂) with
  | false =>
    simp only [Bool.false_eq_true, if_false, List.isEmpty_cons, canonical,
      canonicalFields, hm1, hm2]
  | true =>
    simp only [if_true, List.cons_append, List.nil_append, List.isEmpty_cons, canonical,
      canonicalFields, hm1, hm2]

/-- Witness for C8: two artifacts whose cef mapping lists the same two fields
in opposite orders get the same identifier. -/
theorem artifact_identifier_deterministic_witness :
    _create_artifact_identifier "IP Artifact"
      [("destinationAddress", .str "8.8.8.8"), ("sourceAddress", .str "1.1.1.1")]
      [("destinationAddress", .arr [.str "ip"])] 5 3 3 =
    _create_artifact_identifier "IP Artifact"
      [("sourceAddress", .str "1.1.1.1"), ("destinationAddress", .str "8.8.8.8")]
      [("destinationAddress", .arr [.str "ip"])] 5 3 3 :=
  artifact_identifier_deterministic "IP Artifact"
    [("destinationAddress", .str "8.8.8.8"), ("sourceAddress", .str "1.1.1.1")]
    [("sourceAddress", .str "1.1.1.1"), ("destinationAddress", .str "8.8.8.8")]
    [("destinationAddress", .arr [.str "ip"])]
    [("destinationAddress", .arr [.str "ip"])] 5 3 3 3 3
    (List.Perm.swap _ _ _) (by decide) (List.Perm.refl _) (by decide) rfl
